import Mathlib

/-!
Shallow embedding of the MCBBall simulation core (`lib/player.py`, `lib/mcbball.py`).

Modelling conventions:
* Python floats are modelled as rationals (`ℚ`); the float value `NaN` is modelled by
  `none` in `StatVal := Option ℚ` (pandas `mean`/`std` return NaN on too-few rows).
* A Python `dict` is an insertion-ordered association list `PyDict := List (String × StatVal)`;
  `dict_keys` equality (`means.keys() != stdevs.keys()`) is set equality of the key lists.
* `random.gauss` draws are abstracted by an oracle `ω : Nat → ℚ` indexed by a draw
  counter that is threaded through every call, and `DataFrame.sample()` row selection by
  an oracle `ρ : Nat → Nat` (taken modulo the row count).  The standard deviation is
  modelled by its square (the ddof=1 sample variance) so values stay rational; NaN-ness
  and the n-1 denominator are preserved exactly.
* Uncaught Python exceptions are `PyErr` values; `warnings.warn` followed by `return []`
  is the `GenResult.warned` constructor.
-/

/-- A stat value: `some q` is an ordinary float, `none` is NaN. -/
abbrev StatVal := Option ℚ

/-- A Python dict from category name to stat value (insertion ordered). -/
abbrev PyDict := List (String × StatVal)

/-- One generated stat line: a dict from category name to generated value. -/
abbrev Statline := List (String × StatVal)

/-- One historical row: category name to recorded (non-NaN) value. -/
abbrev Row := List (String × ℚ)

/-- A pandas DataFrame of historical stat lines: named columns and data rows. -/
structure DataFrame where
  cols : List String
  rows : List Row
deriving Repr, DecidableEq

/-- Python exception kinds raised by the embedded code. -/
inductive PyErr where
  | valueError (msg : String)
  | typeError (msg : String)
  | keyError (msg : String)
deriving Repr, DecidableEq

/-- Value of cell `c` of a row (rows built from a DataFrame always carry their columns). -/
def rowGet (r : Row) (c : String) : ℚ := (r.lookup c).getD 0

/-- The keys of a Python dict, in insertion order. -/
def dictKeys (d : PyDict) : List String := d.map Prod.fst

/-- `dict_keys` equality: Python compares key views as sets. -/
def keysMatch (m s : PyDict) : Bool :=
  (dictKeys m).all (fun k => (dictKeys s).contains k) &&
    (dictKeys s).all (fun k => (dictKeys m).contains k)

/-- Python truthiness of an optional dict: `None` and `{}` are falsy. -/
def dictTruthy : Option PyDict → Bool
  | none => false
  | some d => !d.isEmpty

/-- Python's `~` applied to a `bool`: bitwise complement, `~True = -2`, `~False = -1`. -/
def pyInvert (b : Bool) : Int := if b then -2 else -1

/-- Python truthiness of an int: nonzero is truthy. -/
def pyTruthy (n : Int) : Bool := n != 0

/-- `set(a).issuperset(set(b))`. -/
def issuperset (a b : List String) : Bool := b.all (fun x => a.contains x)

/-- pandas `Series.mean()`: NaN on an empty column, else the arithmetic mean. -/
def colMean (xs : List ℚ) : StatVal :=
  if xs.length = 0 then none else some (xs.sum / xs.length)

/-- pandas `Series.std()` (ddof = 1), modelled by its square to stay rational:
NaN when fewer than 2 values, else the unbiased sample variance (n-1 denominator). -/
def colStd (xs : List ℚ) : StatVal :=
  if xs.length < 2 then none
  else some ((xs.map (fun x => (x - xs.sum / xs.length) ^ 2)).sum / ((xs.length : ℚ) - 1))

/-- The values of column `c` of a DataFrame. -/
def colValues (df : DataFrame) (c : String) : List ℚ := df.rows.map (fun r => rowGet r c)

/-- `(stats != 0).any(axis=1)`: this row has some cell different from 0. -/
def rowNonZero (cols : List String) (r : Row) : Bool :=
  cols.any (fun c => rowGet r c != 0)

/-- `stats.loc[(stats != 0).any(axis=1)]`: drop the all-zero ("did not play") rows. -/
def dropZeroRows (df : DataFrame) : DataFrame :=
  ⟨df.cols, df.rows.filter (fun r => rowNonZero df.cols r)⟩

/-- `Player` (`lib/player.py`): identity fields plus statistical state. -/
structure Player where
  first_name : String
  last_name : String
  team : String
  status : Option String
  player_id : Option Nat
  means : Option PyDict
  stdevs : Option PyDict
  stats : Option DataFrame
  stats_available : List String
deriving Repr, DecidableEq

/-- `Player.__init__(first_name, last_name, team, status=None, player_id=None)`.
Note the source assigns the literal `None` to `self.status` and `self.player_id`,
ignoring the constructor arguments. -/
def Player.init (first_name last_name team : String)
    (status : Option String := none) (player_id : Option Nat := none) : Player :=
  { first_name := first_name
    last_name := last_name
    team := team
    status := none
    player_id := none
    means := none
    stdevs := none
    stats := none
    stats_available := [] }

/-- `Player.set_distribution(means, stdevs)`: the returned `Player` is the state after the
call (unchanged when the `ValueError` is raised, which happens before any assignment). -/
def Player.set_distribution (p : Player) (means stdevs : PyDict) :
    Player × Except PyErr (Nat × String) :=
  if !keysMatch means stdevs then
    (p, .error (.valueError "Keys don't match for stat means and standard deviation"))
  else
    ({ p with
        stats := none
        stats_available := dictKeys means
        means := some means
        stdevs := some stdevs },
      .ok (0, "Player statistics set"))

/-- `Player._calculate_distribution(df)`: sample mean and (squared) sample standard
deviation of each available category. -/
def Player.calculate_distribution (stats_available : List String) (df : DataFrame) :
    PyDict × PyDict :=
  (stats_available.map (fun cat => (cat, colMean (colValues df cat))),
   stats_available.map (fun cat => (cat, colStd (colValues df cat))))

/-- `Player.set_stats(stats)`: drop all-zero rows, retain the filtered table, set the
available categories to the table's columns, derive means/stdevs from the filtered table. -/
def Player.set_stats (p : Player) (stats : DataFrame) : Player × (Nat × String) :=
  let stats1 := dropZeroRows stats
  let avail := stats1.cols
  let ms := Player.calculate_distribution avail stats1
  ({ p with
      stats := some stats1
      stats_available := avail
      means := some ms.1
      stdevs := some ms.2 },
    (0, "Player statistics set"))

/-- `self.means[cat]` where `self.means : Option PyDict`: indexing `None` is a
`TypeError`, a missing key is a `KeyError`. -/
def optDictGet (d : Option PyDict) (k : String) : Except PyErr StatVal :=
  match d with
  | none => .error (.typeError "NoneType object is not subscriptable")
  | some d =>
    match d.lookup k with
    | some v => .ok v
    | none => .error (.keyError k)

/-- `random.gauss(mu, sigma)`, abstracted: the draw is the oracle's value (NaN
parameters give NaN). -/
def gaussDraw (mu sigma : StatVal) (r : ℚ) : StatVal :=
  match mu, sigma with
  | some _, some _ => some r
  | _, _ => none

/-- The loop body of `Player._continuous`: one gauss draw per category, advancing the
draw counter; a `TypeError`/`KeyError` on dict access aborts the statline. -/
def continuousLoop (means stdevs : Option PyDict) (cats : List String) (ω : Nat → ℚ)
    (t : Nat) : Except PyErr Statline × Nat :=
  match cats with
  | [] => (.ok [], t)
  | c :: cs =>
    match optDictGet means c with
    | .error e => (.error e, t)
    | .ok mu =>
      match optDictGet stdevs c with
      | .error e => (.error e, t)
      | .ok sigma =>
        match continuousLoop means stdevs cs ω (t + 1) with
        | (.ok rest, t1) => (.ok ((c, gaussDraw mu sigma (ω t)) :: rest), t1)
        | (.error e, t1) => (.error e, t1)

/-- `Player._continuous(stat_list)`: one synthetic gaussian statline. -/
def Player.continuous (p : Player) (stat_list : List String) (ω : Nat → ℚ) (t : Nat) :
    Except PyErr Statline × Nat :=
  continuousLoop p.means p.stdevs stat_list ω t

/-- `Player._bootstrap(stat_list)`: `self.stats[stat_list].sample().to_dict('records')[0]`.
Indexing `None` is a `TypeError`; `.sample()` on an empty table is a `ValueError`;
selecting a missing column is a `KeyError`; otherwise one retained row is chosen
uniformly (here: by the oracle `ρ`, modulo the row count) and its requested
categories are returned. Consumes one `ρ` draw. -/
def Player.bootstrap (p : Player) (stat_list : List String) (ρ : Nat → Nat) (t : Nat) :
    Except PyErr Statline × Nat :=
  match p.stats with
  | none => (.error (.typeError "NoneType object is not subscriptable"), t)
  | some df =>
    if !stat_list.all (fun c => df.cols.contains c) then
      (.error (.keyError "columns not in index"), t)
    else
      match df.rows.get? (ρ t % df.rows.length) with
      | none => (.error (.valueError "a must be greater than 0 unless no samples are taken"), t)
      | some r => (.ok (stat_list.map (fun c => (c, some (rowGet r c)))), t + 1)

/-- The `for i in range(num_games)` loop of the parametric branch: `n` statlines,
threading the draw counter; an exception mid-loop discards the partial list. -/
def continuousN (p : Player) (stat_list : List String) (ω : Nat → ℚ) :
    Nat → Nat → Except PyErr (List Statline) × Nat
  | 0, t => (.ok [], t)
  | n + 1, t =>
    match p.continuous stat_list ω t with
    | (.ok line, t1) =>
      match continuousN p stat_list ω n t1 with
      | (.ok rest, t2) => (.ok (line :: rest), t2)
      | (.error e, t2) => (.error e, t2)
    | (.error e, t1) => (.error e, t1)

/-- The `for i in range(num_games)` loop of the bootstrap branch. -/
def bootstrapN (p : Player) (stat_list : List String) (ρ : Nat → Nat) :
    Nat → Nat → Except PyErr (List Statline) × Nat
  | 0, t => (.ok [], t)
  | n + 1, t =>
    match p.bootstrap stat_list ρ t with
    | (.ok line, t1) =>
      match bootstrapN p stat_list ρ n t1 with
      | (.ok rest, t2) => (.ok (line :: rest), t2)
      | (.error e, t2) => (.error e, t2)
    | (.error e, t1) => (.error e, t1)

/-- Outcome of `Player.generate_statline`: an uncaught exception, a
`warnings.warn` followed by `return []`, or a normal return. -/
inductive GenResult where
  | raised (e : PyErr)
  | warned (msg : String)
  | ok (lines : List Statline)
deriving Repr, DecidableEq

/-- `Player.generate_statline(stat_list, num_games, bootstrap)`.  The guard is the
source's `if ~set(self.stats_available).issuperset(set(stat_list)):` — Python's
bitwise `~` on the `bool`, not `not` — embedded verbatim via `pyInvert`/`pyTruthy`. -/
def Player.generate_statline (p : Player) (stat_list : List String) (num_games : Nat)
    (bootstrap : Bool) (ω : Nat → ℚ) (ρ : Nat → Nat) (t : Nat) : GenResult × Nat :=
  if pyTruthy (pyInvert (issuperset p.stats_available stat_list)) then
    (.raised (.valueError
        ("Item(s) in stat_list is not available for " ++ p.first_name ++ " " ++ p.last_name)),
      t)
  else if dictTruthy p.means && dictTruthy p.stdevs then
    if !bootstrap then
      match continuousN p stat_list ω num_games t with
      | (.ok lines, t1) => (.ok lines, t1)
      | (.error e, t1) => (.raised e, t1)
    else
      match p.stats with
      | some _ =>
        match bootstrapN p stat_list ρ num_games t with
        | (.ok lines, t1) => (.ok lines, t1)
        | (.error e, t1) => (.raised e, t1)
      | none =>
        (.warned ("No bootstrap values available for " ++ p.first_name ++ " " ++ p.last_name),
          t)
  else
    (.warned ("No player statistics inited for " ++ p.first_name ++ " " ++ p.last_name), t)

/-- `Player.generate_statline_all(num_games, bootstrap)`: generates for the whole
available-category set.  The source has no validity-check, warning or fallback here:
it goes straight to the generation loops, so the only non-`ok` outcomes are uncaught
exceptions from the helpers. -/
def Player.generate_statline_all (p : Player) (num_games : Nat) (bootstrap : Bool)
    (ω : Nat → ℚ) (ρ : Nat → Nat) (t : Nat) : Except PyErr (List Statline) × Nat :=
  if !bootstrap then continuousN p p.stats_available ω num_games t
  else bootstrapN p p.stats_available ρ num_games t

/-! Concrete fixtures used by witnesses and counterexamples. -/

/-- A zero gauss oracle. -/
def oracleQ0 : Nat → ℚ := fun _ => 0

/-- A zero row-choice oracle. -/
def oracleN0 : Nat → Nat := fun _ => 0

/-- A freshly constructed player (the constructor arguments for status and id are
supplied but, per the source, not stored). -/
def samplePlayer : Player := Player.init "A" "B" "BOS" (some "GTD") (some 42)

/-- The spec's §8 concrete table: three non-zero game rows and one all-zero row. -/
def sampleTable : DataFrame :=
  ⟨["pts", "reb"],
   [[("pts", 10), ("reb", 5)],
    [("pts", 20), ("reb", 3)],
    [("pts", 30), ("reb", 7)],
    [("pts", 0), ("reb", 0)]]⟩

/-- A one-row table (too few rows for a sample standard deviation). -/
def tinyTable : DataFrame := ⟨["pts"], [[("pts", 7)]]⟩

/-!
`MCBBall.generate_stat_totals` (`lib/mcbball.py`).  The two I/O collaborators are
abstracted as oracles: `getStats p` is the historical table the stats provider returns
for player `p` (for the given `stat_list` and cutoff date), and `numGamesOf team` is the
schedule provider's game count for `team` in the simulated window.  Date arguments are
absorbed into the oracles.
-/

/-- pandas `pd.DataFrame(list_of_dicts)` column inference: the union of the dicts'
keys, in order of first appearance. -/
def inferCols (lines : List Statline) : List String :=
  lines.foldl (fun acc l => acc ++ (l.map Prod.fst).filter (fun c => !acc.contains c)) []

/-- pandas column sum with default `skipna=True`: sum of the non-NaN cells of column
`c` (a missing key materialises as a NaN cell); an all-NaN or empty column sums to 0. -/
def colSumLines (lines : List Statline) (c : String) : StatVal :=
  some ((lines.filterMap (fun l => (l.lookup c).bind id)).sum)

/-- One pass of the simulation loop body after the statlines are gathered:
`df = pd.DataFrame(statlines); df['games'] = 1; df.sum().tolist()`.
When `games` is already one of the inferred columns the assignment OVERWRITES that
column in place (it keeps its position and the row width does not grow); otherwise a
new `games` column is appended last.  Either way the column of ones sums to the row
count, and the other columns sum as before. -/
def passTotals (statlines : List Statline) : List StatVal :=
  if (inferCols statlines).contains "games" then
    (inferCols statlines).map (fun c =>
      if c == "games" then some ((statlines.length : ℚ)) else colSumLines statlines c)
  else
    (inferCols statlines).map (fun c => colSumLines statlines c) ++
      [some ((statlines.length : ℚ))]

/-- The inner `for player in roster:` loop of one pass: extend `statlines` with each
player's `generate_statline_all(num_games=num_games[player.team], bootstrap=bootstrap)`,
threading the draw counter; an uncaught exception propagates. -/
def rosterLines (numGamesOf : String → Nat) (bootstrap : Bool) (ω : Nat → ℚ)
    (ρ : Nat → Nat) : List Player → Nat → Except PyErr (List Statline) × Nat
  | [], t => (.ok [], t)
  | p :: ps, t =>
    match p.generate_statline_all (numGamesOf p.team) bootstrap ω ρ t with
    | (.ok lines, t1) =>
      match rosterLines numGamesOf bootstrap ω ρ ps t1 with
      | (.ok rest, t2) => (.ok (lines ++ rest), t2)
      | (.error e, t2) => (.error e, t2)
    | (.error e, t1) => (.error e, t1)

/-- The outer `for i in range(num_runs):` loop: one summed total row per pass. -/
def runsLoop (roster : List Player) (numGamesOf : String → Nat) (bootstrap : Bool)
    (ω : Nat → ℚ) (ρ : Nat → Nat) : Nat → Nat → Except PyErr (List (List StatVal)) × Nat
  | 0, t => (.ok [], t)
  | n + 1, t =>
    match rosterLines numGamesOf bootstrap ω ρ roster t with
    | (.ok statlines, t1) =>
      match runsLoop roster numGamesOf bootstrap ω ρ n t1 with
      | (.ok rest, t2) => (.ok (passTotals statlines :: rest), t2)
      | (.error e, t2) => (.error e, t2)
    | (.error e, t1) => (.error e, t1)

/-- `MCBBall.generate_stat_totals(roster, sim_start, sim_end, stat_list, stat_start,
num_runs, bootstrap)`: seed every player with `set_stats(getStats player)`, run
`num_runs` passes, then build `pd.DataFrame(runs, columns=stat_list + ['games'])` —
which raises a `ValueError` when a data row's width differs from the column count. -/
def generate_stat_totals (getStats : Player → DataFrame) (numGamesOf : String → Nat)
    (roster : List Player) (stat_list : List String) (num_runs : Nat) (bootstrap : Bool)
    (ω : Nat → ℚ) (ρ : Nat → Nat) (t : Nat) :
    Except PyErr (List String × List (List StatVal)) × Nat :=
  let roster1 := roster.map (fun p => (p.set_stats (getStats p)).1)
  match runsLoop roster1 numGamesOf bootstrap ω ρ num_runs t with
  | (.ok runs, t1) =>
    if runs.all (fun r => r.length = stat_list.length + 1) then
      (.ok (stat_list ++ ["games"], runs), t1)
    else
      (.error (.valueError "columns passed, passed data had a different number of columns"), t1)
  | (.error e, t1) => (.error e, t1)

/-- Verification predicate: the model's statistical state is fully initialized for
category list `ks` (the state `set_stats` leaves when the fetched table's columns are
`ks`): the available set is `ks` and both derived dicts are present with key list `ks`. -/
def readyFor (q : Player) (ks : List String) : Prop :=
  q.stats_available = ks ∧
    (∃ m, q.means = some m ∧ dictKeys m = ks) ∧
    (∃ s, q.stdevs = some s ∧ dictKeys s = ks)

/-! ## Helper lemmas -/

/-- Python's `~` on a `bool` is never falsy: `~True = -2`, `~False = -1`. -/
theorem pyInvert_always_truthy (b : Bool) : pyTruthy (pyInvert b) = true := by
  cases b <;> decide

/-- A key present in a dict's key list has a successful lookup. -/
theorem lookup_isSome_of_mem_keys (d : PyDict) (c : String) (h : c ∈ dictKeys d) :
    (d.lookup c).isSome = true := by
  induction d with
  | nil => simp [dictKeys] at h
  | cons kv rest ih =>
    simp only [dictKeys, List.map_cons, List.mem_cons] at h
    by_cases hc : c = kv.1
    · simp [List.lookup, hc]
    · have : c ∈ dictKeys rest := by
        rcases h with h | h
        · exact absurd h hc
        · simpa [dictKeys] using h
      have hbeq : (c == kv.1) = false := by simp [hc]
      simpa [List.lookup, hbeq] using ih this

/-- `l.contains a` decides membership. -/
theorem contains_true_iff (l : List String) (a : String) : l.contains a = true ↔ a ∈ l :=
  List.elem_iff

/-- `dict_keys` view equality is key-set equality. -/
theorem keysMatch_iff (m s : PyDict) :
    keysMatch m s = true ↔ (dictKeys m).toFinset = (dictKeys s).toFinset := by
  simp only [keysMatch, Bool.and_eq_true, List.all_eq_true, contains_true_iff,
    Finset.ext_iff, List.mem_toFinset]
  constructor
  · rintro ⟨h1, h2⟩ a
    exact ⟨fun ha => h1 a ha, fun ha => h2 a ha⟩
  · intro h
    exact ⟨fun a ha => (h a).1 ha, fun a ha => (h a).2 ha⟩

/-! ## Claims -/

/-- C1: `generate_statline`'s availability guard is `if ~set(...).issuperset(set(...)):`
with Python's bitwise `~` on the `bool`, which is truthy for both `True` (-2) and
`False` (-1) — so the call raises the `ValueError` for every input, including every
`stat_list` that IS a subset of the available categories (here `["pts"] ⊆ ["pts"]`).
The claim describes the evident intent (`not` instead of `~`); the code contradicts
its own docstring and error message. -/
theorem generate_statline_always_raises :
    (∀ (p : Player) (stat_list : List String) (num_games : Nat) (bootstrap : Bool)
        (ω : Nat → ℚ) (ρ : Nat → Nat) (t : Nat),
      p.generate_statline stat_list num_games bootstrap ω ρ t =
        (.raised (.valueError ("Item(s) in stat_list is not available for " ++
            p.first_name ++ " " ++ p.last_name)), t)) ∧
    issuperset ((samplePlayer.set_distribution [("pts", some 1)]
        [("pts", some 2)]).1.stats_available) ["pts"] = true ∧
    ((samplePlayer.set_distribution [("pts", some 1)] [("pts", some 2)]).1.generate_statline
        ["pts"] 1 false oracleQ0 oracleN0 0).1 =
      .raised (.valueError "Item(s) in stat_list is not available for A B") := by
  refine ⟨fun p sl n b ω ρ t => ?_, by decide, by decide⟩
  simp [Player.generate_statline, pyInvert_always_truthy]

/-- C9: the constructor receives `status` and `player_id` but assigns the literal
`None` to both fields, so the passed availability status and external id are dropped:
every freshly constructed player has `status = none` and `player_id = none`, and the
concrete call with `status="GTD"`, `player_id=42` does not store them. -/
theorem init_ignores_status_and_id :
    (∀ (f l tm : String) (s : Option String) (i : Option Nat),
      (Player.init f l tm s i).status = none ∧ (Player.init f l tm s i).player_id = none) ∧
    samplePlayer.status ≠ some "GTD" ∧ samplePlayer.player_id ≠ some 42 := by
  exact ⟨fun f l tm s i => ⟨rfl, rfl⟩, by decide, by decide⟩

/-- C6: `set_distribution` raises the `ValueError` exactly when the key sets of the
two mappings differ; on identical key sets it clears the retained table, sets the
available categories to the supplied key list, stores both mappings verbatim, and
returns the success signal `(0, 'Player statistics set')`. -/
theorem set_distribution_correct (p : Player) (means stdevs : PyDict) :
    if (dictKeys means).toFinset = (dictKeys stdevs).toFinset then
      p.set_distribution means stdevs =
        ({ p with
            stats := none
            stats_available := dictKeys means
            means := some means
            stdevs := some stdevs },
          .ok (0, "Player statistics set"))
    else
      p.set_distribution means stdevs =
        (p, .error (.valueError "Keys don't match for stat means and standard deviation")) := by
  by_cases h : (dictKeys means).toFinset = (dictKeys stdevs).toFinset
  · rw [if_pos h]
    unfold Player.set_distribution
    rw [(keysMatch_iff means stdevs).mpr h]
    rfl
  · rw [if_neg h]
    unfold Player.set_distribution
    have hk : keysMatch means stdevs = false := by
      cases hk : keysMatch means stdevs
      · rfl
      · exact absurd ((keysMatch_iff _ _).mp hk) h
    rw [hk]
    rfl

/-- C10: on mismatched key sets `set_distribution` raises before any assignment, so
the whole statistical state (means, stdevs, retained table, available categories) is
exactly the state before the call. -/
theorem set_distribution_atomic_on_error (p : Player) (means stdevs : PyDict)
    (h : (dictKeys means).toFinset ≠ (dictKeys stdevs).toFinset) :
    p.set_distribution means stdevs =
      (p, .error (.valueError "Keys don't match for stat means and standard deviation")) := by
  unfold Player.set_distribution
  have hk : keysMatch means stdevs = false := by
    cases hk : keysMatch means stdevs
    · rfl
    · exact absurd ((keysMatch_iff _ _).mp hk) h
  rw [hk]
  rfl

/-- Witness for C10 at a concrete mismatched pair. -/
theorem set_distribution_atomic_on_error_witness :
    (dictKeys [("pts", some (1 : ℚ))]).toFinset ≠ (dictKeys ([] : PyDict)).toFinset ∧
    samplePlayer.set_distribution [("pts", some 1)] [] =
      (samplePlayer,
        .error (.valueError "Keys don't match for stat means and standard deviation")) :=
  ⟨by decide, set_distribution_atomic_on_error samplePlayer _ _ (by decide)⟩

/-- The parametric loop over an empty category list: each pass draws nothing and
produces an empty dict, so `n` passes give `n` empty statlines and leave the draw
counter untouched. -/
theorem continuousN_nil (p : Player) (ω : Nat → ℚ) (n t : Nat) :
    continuousN p [] ω n t = (.ok (List.replicate n []), t) := by
  induction n generalizing t with
  | zero => rfl
  | succ m ih =>
    simp [continuousN, Player.continuous, continuousLoop, ih, List.replicate_succ]

/-- C2 counterexample: on a freshly constructed model (no distribution, no table),
`generate_statline_all(num_games=1)` does not warn and does not return an empty
sequence — it returns the one-element sequence `[{}]`; and with `bootstrap=True` it
raises a `TypeError` (indexing `None`) instead of warning. -/
theorem generate_statline_all_cex :
    ((Player.init "A" "B" "BOS" none none).generate_statline_all 1 false oracleQ0 oracleN0 0 =
        (.ok [[]], 0) ∧ ([([] : Statline)]).length ≠ 0) ∧
    ((Player.init "A" "B" "BOS" none none).generate_statline_all 1 true oracleQ0 oracleN0 0).1 =
      .error (.typeError "NoneType object is not subscriptable") := by
  exact ⟨⟨rfl, by decide⟩, rfl⟩

/-- C2 amended: `generate_statline_all` has none of `generate_statline`'s branching —
no availability check, no warning path.  On a model with no statistics set
(empty available set, no retained table) the parametric branch returns `num_games`
empty statlines (not an empty sequence, no warning), and the bootstrap branch with
`num_games ≥ 1` raises a `TypeError` by indexing the absent table (not a warning). -/
theorem generate_statline_all_uninitialized (p : Player) (n : Nat) (ω : Nat → ℚ)
    (ρ : Nat → Nat) (t : Nat) (hav : p.stats_available = []) (hst : p.stats = none) :
    p.generate_statline_all n false ω ρ t = (.ok (List.replicate n []), t) ∧
    (0 < n → p.generate_statline_all n true ω ρ t =
      (.error (.typeError "NoneType object is not subscriptable"), t)) := by
  constructor
  · simp [Player.generate_statline_all, hav, continuousN_nil]
  · intro hn
    cases n with
    | zero => omega
    | succ m =>
      simp [Player.generate_statline_all, hav, bootstrapN, Player.bootstrap, hst]

/-- Witness for the amended C2 at a concrete uninitialized model. -/
theorem generate_statline_all_uninitialized_witness :
    (Player.init "A" "B" "C" none none).stats_available = [] ∧
    (Player.init "A" "B" "C" none none).stats = none ∧ (0 : Nat) < 2 ∧
    (Player.init "A" "B" "C" none none).generate_statline_all 2 false oracleQ0 oracleN0 0 =
      (.ok (List.replicate 2 []), 0) ∧
    (Player.init "A" "B" "C" none none).generate_statline_all 2 true oracleQ0 oracleN0 0 =
      (.error (.typeError "NoneType object is not subscriptable"), 0) :=
  ⟨rfl, rfl, by decide,
   (generate_statline_all_uninitialized _ 2 oracleQ0 oracleN0 0 rfl rfl).1,
   (generate_statline_all_uninitialized _ 2 oracleQ0 oracleN0 0 rfl rfl).2 (by decide)⟩

/-- A successful `_bootstrap` draw on a model whose retained table is `df` returns the
requested categories of one of `df`'s rows. -/
theorem bootstrap_mem (q : Player) (df : DataFrame) (hq : q.stats = some df)
    (cats : List String) (ρ : Nat → Nat) (t t' : Nat) (line : Statline)
    (h : q.bootstrap cats ρ t = (.ok line, t')) :
    ∃ r ∈ df.rows, line = cats.map (fun c => (c, some (rowGet r c))) := by
  simp only [Player.bootstrap, hq] at h
  split at h
  · simp at h
  · split at h
    · simp at h
    · rename_i r hg
      simp only [Prod.mk.injEq, Except.ok.injEq] at h
      exact ⟨r, List.get?_mem hg, h.1.symm⟩

/-- C4: `set_stats` filters the all-zero rows out first: the derived means/stdevs are
computed from the filtered table only, every retained row is a non-all-zero row of the
input, and every successful bootstrap draw afterwards returns the requested categories
of one of those retained non-zero rows. -/
theorem set_stats_filters_zero_rows (p : Player) (stats : DataFrame) :
    ((p.set_stats stats).1.means =
        some ((Player.calculate_distribution stats.cols (dropZeroRows stats)).1) ∧
      (p.set_stats stats).1.stdevs =
        some ((Player.calculate_distribution stats.cols (dropZeroRows stats)).2) ∧
      (p.set_stats stats).1.stats = some (dropZeroRows stats)) ∧
    (∀ r ∈ (dropZeroRows stats).rows, r ∈ stats.rows ∧ rowNonZero stats.cols r = true) ∧
    (∀ (cats : List String) (ρ : Nat → Nat) (t t' : Nat) (line : Statline),
      (p.set_stats stats).1.bootstrap cats ρ t = (.ok line, t') →
      ∃ r ∈ stats.rows, rowNonZero stats.cols r = true ∧
        line = cats.map (fun c => (c, some (rowGet r c)))) := by
  refine ⟨⟨rfl, rfl, rfl⟩, ?_, ?_⟩
  · intro r hr
    exact List.mem_filter.mp hr
  · intro cats ρ t t' line h
    obtain ⟨r, hr, hline⟩ := bootstrap_mem _ (dropZeroRows stats) rfl cats ρ t t' line h
    obtain ⟨hmem, hnz⟩ := List.mem_filter.mp hr
    exact ⟨r, hmem, hnz, hline⟩

/-- Witness for C4: on the §8 table, a concrete bootstrap draw (row choice 2) returns
the third non-zero row's values. -/
theorem set_stats_filters_zero_rows_witness :
    ∃ r ∈ sampleTable.rows, rowNonZero sampleTable.cols r = true ∧
      ([("pts", some (30 : ℚ)), ("reb", some (7 : ℚ))] : Statline) =
        ["pts", "reb"].map (fun c => (c, some (rowGet r c))) :=
  (set_stats_filters_zero_rows samplePlayer sampleTable).2.2 ["pts", "reb"]
    (fun _ => 2) 0 1 _ rfl

/-- C7: the distribution `set_stats` derives.  The standard deviation is modelled by
its square (the ddof=1 sample variance), so "NaN" (`none`) and the n-1 denominator are
preserved: whenever fewer than 2 rows survive the zero-row filter every derived
standard deviation is NaN; and on the §8 table the all-zero row is discarded, exactly
3 rows remain, the derived means are pts = 20 and reb = 5, and the derived squared
standard deviations are pts = 100 = 10² and reb = 4 = 2² (the n-1 denominator:
dividing by n = 3 would give 200/3 and 8/3 instead). -/
theorem set_stats_distribution_values :
    (∀ (p : Player) (stats : DataFrame), (dropZeroRows stats).rows.length < 2 →
      (p.set_stats stats).1.stdevs = some (stats.cols.map (fun c => (c, none)))) ∧
    ((samplePlayer.set_stats sampleTable).1.means =
        some [("pts", some 20), ("reb", some 5)] ∧
      (samplePlayer.set_stats sampleTable).1.stdevs =
        some [("pts", some 100), ("reb", some 4)] ∧
      (dropZeroRows sampleTable).rows.length = 3) := by
  constructor
  · intro p stats h
    show some ((dropZeroRows stats).cols.map fun c =>
      (c, colStd (colValues (dropZeroRows stats) c))) = _
    have hc : (dropZeroRows stats).cols = stats.cols := rfl
    rw [hc]
    congr 1
    apply List.map_congr_left
    intro c _
    have hlen : (colValues (dropZeroRows stats) c).length < 2 := by
      simpa [colValues] using h
    simp [colStd, hlen]
  · refine ⟨?_, ?_, by decide⟩ <;>
    · simp [Player.set_stats, Player.calculate_distribution, colMean, colStd, colValues,
        dropZeroRows, rowNonZero, rowGet, sampleTable, samplePlayer, Player.init, List.lookup]
      norm_num

/-- Witness for C7's NaN clause at a one-row table. -/
theorem set_stats_distribution_values_witness :
    (dropZeroRows tinyTable).rows.length < 2 ∧
    ((Player.init "X" "Y" "Z" none none).set_stats tinyTable).1.stdevs =
      some [("pts", none)] :=
  ⟨by decide,
   (set_stats_distribution_values.1 (Player.init "X" "Y" "Z" none none) tinyTable
      (by decide)).trans (by decide)⟩

/-- When every requested category has an entry in both dicts, one parametric pass
succeeds and produces a statline whose key list is exactly the requested list. -/
theorem continuousLoop_ok (m s : PyDict) (cats : List String) (ω : Nat → ℚ) (t : Nat)
    (hm : ∀ c ∈ cats, (m.lookup c).isSome = true)
    (hs : ∀ c ∈ cats, (s.lookup c).isSome = true) :
    ∃ line t', continuousLoop (some m) (some s) cats ω t = (.ok line, t') ∧
      line.map Prod.fst = cats := by
  induction cats generalizing t with
  | nil => exact ⟨[], t, rfl, rfl⟩
  | cons c cs ih =>
    obtain ⟨mu, hmu⟩ := Option.isSome_iff_exists.mp (hm c (by simp))
    obtain ⟨sg, hsg⟩ := Option.isSome_iff_exists.mp (hs c (by simp))
    obtain ⟨line, t', hline, hkeys⟩ :=
      ih (t + 1) (fun x hx => hm x (List.mem_cons_of_mem c hx))
        (fun x hx => hs x (List.mem_cons_of_mem c hx))
    refine ⟨(c, gaussDraw mu sg (ω t)) :: line, t', ?_, by simp [hkeys]⟩
    simp [continuousLoop, optDictGet, hmu, hsg, hline]

/-- `num_games` successful parametric passes: exactly `n` statlines, each keyed by the
requested category list. -/
theorem continuousN_ok (p : Player) (cats : List String) (ω : Nat → ℚ) (m s : PyDict)
    (hpm : p.means = some m) (hps : p.stdevs = some s)
    (hm : ∀ c ∈ cats, (m.lookup c).isSome = true)
    (hs : ∀ c ∈ cats, (s.lookup c).isSome = true) (n t : Nat) :
    ∃ lines t', continuousN p cats ω n t = (.ok lines, t') ∧
      lines.length = n ∧ ∀ l ∈ lines, l.map Prod.fst = cats := by
  induction n generalizing t with
  | zero => exact ⟨[], t, rfl, rfl, by simp⟩
  | succ k ih =>
    obtain ⟨line, t1, hline, hkeys⟩ := continuousLoop_ok m s cats ω t hm hs
    obtain ⟨lines, t2, hlines, hlen, hall⟩ := ih t1
    refine ⟨line :: lines, t2, ?_, by simp [hlen], ?_⟩
    · have hc : p.continuous cats ω t = (.ok line, t1) := by
        simp [Player.continuous, hpm, hps, hline]
      simp [continuousN, hc, hlines]
    · intro l hl
      rcases List.mem_cons.mp hl with h | h
      · exact h ▸ hkeys
      · exact hall l h

/-- C8: `set_distribution` with matching key sets followed by
`generate_statline_all(num_games=N)` in parametric mode returns exactly N statlines,
each containing every category of the supplied key set (its key list is exactly the
supplied key list). -/
theorem setdist_then_generate_all (p : Player) (means stdevs : PyDict) (N : Nat)
    (ω : Nat → ℚ) (ρ : Nat → Nat) (t : Nat)
    (h : (dictKeys means).toFinset = (dictKeys stdevs).toFinset) :
    ∃ lines t',
      (p.set_distribution means stdevs).1.generate_statline_all N false ω ρ t =
        (.ok lines, t') ∧
      lines.length = N ∧
      ∀ line ∈ lines, line.map Prod.fst = dictKeys means := by
  have hk : keysMatch means stdevs = true := (keysMatch_iff _ _).mpr h
  have hmem : ∀ c ∈ dictKeys means, c ∈ dictKeys stdevs := by
    intro c hc
    have := Finset.ext_iff.mp h c
    simp only [List.mem_toFinset] at this
    exact this.mp hc
  have hq : (p.set_distribution means stdevs).1 =
      { p with
          stats := none
          stats_available := dictKeys means
          means := some means
          stdevs := some stdevs } := by
    simp [Player.set_distribution, hk]
  obtain ⟨lines, t', hrun, hlen, hall⟩ :=
    continuousN_ok (p.set_distribution means stdevs).1 (dictKeys means) ω means stdevs
      (by rw [hq]) (by rw [hq])
      (fun c hc => lookup_isSome_of_mem_keys means c hc)
      (fun c hc => lookup_isSome_of_mem_keys stdevs c (hmem c hc)) N t
  refine ⟨lines, t', ?_, hlen, hall⟩
  have hav : (p.set_distribution means stdevs).1.stats_available = dictKeys means := by
    rw [hq]
  simp [Player.generate_statline_all, hav, hrun]

/-- Witness for C8 at a concrete two-category distribution with N = 2. -/
theorem setdist_then_generate_all_witness :
    (dictKeys [("pts", some (10 : ℚ)), ("reb", some 4)]).toFinset =
      (dictKeys [("pts", some (3 : ℚ)), ("reb", some 1)]).toFinset ∧
    ∃ lines t',
      (samplePlayer.set_distribution [("pts", some 10), ("reb", some 4)]
          [("pts", some 3), ("reb", some 1)]).1.generate_statline_all 2 false
          oracleQ0 oracleN0 0 =
        (.ok lines, t') ∧
      lines.length = 2 ∧
      ∀ line ∈ lines,
        line.map Prod.fst = dictKeys [("pts", some (10 : ℚ)), ("reb", some 4)] :=
  ⟨by decide,
   setdist_then_generate_all samplePlayer _ _ 2 oracleQ0 oracleN0 0 (by decide)⟩

/-- The key lists of the dicts `_calculate_distribution` builds are the available list. -/
theorem dictKeys_calculate_distribution (avail : List String) (df : DataFrame) :
    dictKeys (Player.calculate_distribution avail df).1 = avail ∧
    dictKeys (Player.calculate_distribution avail df).2 = avail := by
  constructor <;>
  · simp only [Player.calculate_distribution, dictKeys, List.map_map]
    exact List.map_id'' (congrFun rfl) avail

/-- `set_stats` on a table with columns `ks` leaves the model ready for `ks`. -/
theorem set_stats_readyFor (p : Player) (df : DataFrame) (ks : List String)
    (hcols : df.cols = ks) : readyFor (p.set_stats df).1 ks := by
  refine ⟨hcols, ⟨(Player.calculate_distribution df.cols (dropZeroRows df)).1, rfl, ?_⟩,
    ⟨(Player.calculate_distribution df.cols (dropZeroRows df)).2, rfl, ?_⟩⟩
  · exact hcols ▸ (dictKeys_calculate_distribution df.cols (dropZeroRows df)).1
  · exact hcols ▸ (dictKeys_calculate_distribution df.cols (dropZeroRows df)).2

/-- A ready model's parametric `generate_statline_all` succeeds: `n` statlines, each
keyed by the full available list. -/
theorem generate_all_ready (q : Player) (ks : List String) (h : readyFor q ks)
    (n t : Nat) (ω : Nat → ℚ) (ρ : Nat → Nat) :
    ∃ lines t', q.generate_statline_all n false ω ρ t = (.ok lines, t') ∧
      lines.length = n ∧ ∀ l ∈ lines, l.map Prod.fst = ks := by
  obtain ⟨hav, ⟨m, hm, hmk⟩, ⟨s, hs, hsk⟩⟩ := h
  obtain ⟨lines, t', hrun, hlen, hall⟩ :=
    continuousN_ok q ks ω m s hm hs
      (fun c hc => lookup_isSome_of_mem_keys m c (hmk ▸ hc))
      (fun c hc => lookup_isSome_of_mem_keys s c (hsk ▸ hc)) n t
  exact ⟨lines, t', by simp [Player.generate_statline_all, hav, hrun], hlen, hall⟩

/-- The per-pass roster loop on a roster of ready models succeeds; the combined
statline list has one line per scheduled game (summed over the roster) and every
line is keyed by `ks`. -/
theorem rosterLines_ok (numGamesOf : String → Nat) (ω : Nat → ℚ) (ρ : Nat → Nat)
    (ks : List String) (roster1 : List Player) (h : ∀ q ∈ roster1, readyFor q ks) :
    ∀ t, ∃ statlines t',
      rosterLines numGamesOf false ω ρ roster1 t = (.ok statlines, t') ∧
      statlines.length = (roster1.map (fun q => numGamesOf q.team)).sum ∧
      ∀ l ∈ statlines, l.map Prod.fst = ks := by
  induction roster1 with
  | nil => exact fun t => ⟨[], t, rfl, rfl, by simp⟩
  | cons q qs ih =>
    intro t
    obtain ⟨lines, t1, hrun, hlen, hall⟩ :=
      generate_all_ready q ks (h q (by simp)) (numGamesOf q.team) t ω ρ
    obtain ⟨rest, t2, hrest, hrlen, hrall⟩ :=
      (fun t => ih (fun x hx => h x (List.mem_cons_of_mem q hx)) t) t1
    refine ⟨lines ++ rest, t2, ?_, ?_, ?_⟩
    · simp [rosterLines, hrun, hrest]
    · simp [hlen, hrlen]
    · intro l hl
      rcases List.mem_append.mp hl with h1 | h1
      · exact hall l h1
      · exact hrall l h1

/-- Folding further statlines whose keys are all already in the accumulator leaves the
inferred column list unchanged. -/
theorem inferCols_foldl_fixed (lines : List Statline) (acc : List String)
    (h : ∀ l ∈ lines, ∀ c ∈ l.map Prod.fst, c ∈ acc) :
    lines.foldl (fun a l => a ++ (l.map Prod.fst).filter (fun c => !a.contains c)) acc
      = acc := by
  induction lines generalizing acc with
  | nil => rfl
  | cons l ls ih =>
    have hnil : (l.map Prod.fst).filter (fun c => !acc.contains c) = [] := by
      apply List.filter_eq_nil_iff.mpr
      intro c hc
      have hmem := h l (by simp) c hc
      simp only [Bool.not_eq_true', Bool.not_eq_false]
      exact (contains_true_iff acc c).mpr hmem
    simp only [List.foldl_cons, hnil, List.append_nil]
    exact ih acc (fun l' hl' => h l' (List.mem_cons_of_mem l hl'))

/-- pandas column inference over a nonempty record list whose dicts all share the same
duplicate-free key list is that key list. -/
theorem inferCols_uniform (lines : List Statline) (ks : List String) (hne : lines ≠ [])
    (hk : ∀ l ∈ lines, l.map Prod.fst = ks) :
    inferCols lines = ks := by
  cases lines with
  | nil => exact absurd rfl hne
  | cons l ls =>
    have hl : l.map Prod.fst = ks := hk l (by simp)
    unfold inferCols
    simp only [List.foldl_cons]
    have h1 : ([] : List String) ++
        (l.map Prod.fst).filter (fun c => !([] : List String).contains c) = ks := by
      rw [hl]
      simp [List.filter_eq_self]
    rw [h1]
    exact inferCols_foldl_fixed ls ks
      (fun l' hl' c hc => (hk l' (List.mem_cons_of_mem l hl')) ▸ hc)

/-- One pass over statlines that all share a key list `ks` not containing `games`:
the summed row is the `ks` column sums followed by the appended games count (the
number of statlines). -/
theorem passTotals_uniform (lines : List Statline) (ks : List String) (hne : lines ≠ [])
    (hk : ∀ l ∈ lines, l.map Prod.fst = ks) (hg : "games" ∉ ks) :
    passTotals lines = ks.map (fun c => colSumLines lines c) ++
      [some ((lines.length : ℚ))] := by
  unfold passTotals
  rw [inferCols_uniform lines ks hne hk]
  have hc : ks.contains "games" = false := by
    cases hcg : ks.contains "games"
    · rfl
    · exact absurd ((contains_true_iff ks "games").mp hcg) hg
  rw [hc]
  simp

/-- `num_runs` passes on a roster of ready models succeed, giving one total row per
pass; every row has one cell per category plus the games cell, and the games cell is
always the roster-wide scheduled-game count. -/
theorem runsLoop_ok (roster1 : List Player) (numGamesOf : String → Nat)
    (ω : Nat → ℚ) (ρ : Nat → Nat) (ks : List String)
    (hready : ∀ q ∈ roster1, readyFor q ks) (hg : "games" ∉ ks)
    (hpos : 0 < (roster1.map fun q => numGamesOf q.team).sum ∨ ks = []) :
    ∀ R t, ∃ runs t',
      runsLoop roster1 numGamesOf false ω ρ R t = (.ok runs, t') ∧
      runs.length = R ∧
      ∀ row ∈ runs, row.length = ks.length + 1 ∧
        row.getLast? =
          some (some (((roster1.map fun q => numGamesOf q.team).sum : ℚ))) := by
  intro R
  induction R with
  | zero => exact fun t => ⟨[], t, rfl, rfl, by simp⟩
  | succ k ih =>
    intro t
    obtain ⟨statlines, t1, hrl, hslen, hall⟩ :=
      rosterLines_ok numGamesOf ω ρ ks roster1 hready t
    obtain ⟨runs, t2, hruns, hrlen, hrows⟩ := ih t1
    refine ⟨passTotals statlines :: runs, t2, ?_, by simp [hrlen], ?_⟩
    · simp [runsLoop, hrl, hruns]
    · intro row hrow
      rcases List.mem_cons.mp hrow with h | h
      · subst h
        by_cases hne : statlines = []
        · subst hne
          have hsum : (roster1.map fun q => numGamesOf q.team).sum = 0 := hslen.symm
          have hks : ks = [] := by
            rcases hpos with hp | hp
            · omega
            · exact hp
          subst hks
          rw [hsum]
          exact ⟨rfl, rfl⟩
        · rw [passTotals_uniform statlines ks hne hall hg]
          refine ⟨by simp, ?_⟩
          rw [List.getLast?_concat, hslen]
      · exact hrows row h

/-- Master success lemma for `generate_stat_totals` in parametric mode: when every
fetched table has exactly the requested columns, the requested list is duplicate-free
and does not contain `games`, and either some rostered player has a scheduled game or
no category is requested, the simulation returns `R` total rows under columns
`stat_list ++ ["games"]`, each row of width `|stat_list| + 1` with the roster-wide
game count in the games cell.  The two list-shape hypotheses bound the region where
the assoc-list statline model coincides with Python dicts: duplicate requested
categories collapse in a Python dict (and `games` among them is overwritten by
`df['games'] = 1`), making the real pass rows narrower and the final frame
construction raise instead. -/
theorem generate_stat_totals_ok (getStats : Player → DataFrame)
    (numGamesOf : String → Nat) (roster : List Player) (stat_list : List String)
    (ω : Nat → ℚ) (ρ : Nat → Nat) (hnodup : stat_list.Nodup)
    (hg : "games" ∉ stat_list)
    (hcols : ∀ p ∈ roster, (getStats p).cols = stat_list)
    (hpos : 0 < (roster.map fun p => numGamesOf p.team).sum ∨ stat_list = []) :
    ∀ R t, ∃ runs t',
      generate_stat_totals getStats numGamesOf roster stat_list R false ω ρ t =
        (.ok (stat_list ++ ["games"], runs), t') ∧
      runs.length = R ∧
      ∀ row ∈ runs, row.length = stat_list.length + 1 ∧
        row.getLast? =
          some (some (((roster.map fun p => numGamesOf p.team).sum : ℚ))) := by
  intro R t
  set roster1 := roster.map (fun p => (p.set_stats (getStats p)).1) with hr1
  have hteam : roster1.map (fun q => numGamesOf q.team) =
      roster.map (fun p => numGamesOf p.team) := by
    rw [hr1, List.map_map]
    rfl
  have hready : ∀ q ∈ roster1, readyFor q stat_list := by
    intro q hq
    obtain ⟨p, hp, rfl⟩ := List.mem_map.mp hq
    exact set_stats_readyFor p (getStats p) stat_list (hcols p hp)
  have hpos1 : 0 < (roster1.map fun q => numGamesOf q.team).sum ∨ stat_list = [] := by
    rw [hteam]
    exact hpos
  obtain ⟨runs, t', hruns, hlen, hrows⟩ :=
    runsLoop_ok roster1 numGamesOf ω ρ stat_list hready hg hpos1 R t
  have hall : (runs.all fun r => decide (r.length = stat_list.length + 1)) = true := by
    rw [List.all_eq_true]
    intro r hr
    exact decide_eq_true ((hrows r hr).1)
  refine ⟨runs, t', ?_, hlen, ?_⟩
  · unfold generate_stat_totals
    rw [← hr1]
    simp [hruns, hall]
  · intro row hrow
    have h := hrows row hrow
    rwa [hteam] at h

/-- With an empty roster every pass gathers no statlines, so each summed row is the
single games cell `0`. -/
theorem runsLoop_empty_roster (numGamesOf : String → Nat) (ω : Nat → ℚ)
    (ρ : Nat → Nat) (R t : Nat) :
    runsLoop [] numGamesOf false ω ρ R t = (.ok (List.replicate R [some 0]), t) := by
  induction R with
  | zero => rfl
  | succ k ih =>
    simp [runsLoop, rosterLines, ih, passTotals, inferCols, List.replicate_succ]

/-- C3 counterexample: with an empty roster, one run, and the nonempty category list
`["pts"]`, `generate_stat_totals` raises pandas' column-count `ValueError` instead of
returning one all-zero row. -/
theorem generate_stat_totals_empty_roster_cex :
    (generate_stat_totals (fun _ => sampleTable) (fun _ => 2) [] ["pts"] 1 false
        oracleQ0 oracleN0 0).1 =
      .error (.valueError "columns passed, passed data had a different number of columns") :=
  rfl

/-- C3 amended (parametric mode): (1) whenever every fetched table has exactly the
requested columns, the requested list is duplicate-free and does not contain `games`
(duplicates collapse in the per-line Python dicts, and a requested `games` column is
overwritten in place by `df['games'] = 1`, so in either case the pass rows come out
narrower than `stat_list + ['games']` and the final frame construction raises), and
either a rostered player has a scheduled game or no category is requested, the result
is exactly `R` rows under columns `stat_list ++ ["games"]`; (2) with an empty roster
AND an empty category list the result is `R` all-zero single-cell rows; but (3) with
an empty roster and a nonempty category list the final table construction raises a
`ValueError` (each pass sums to the lone games cell, narrower than the requested
column list) — the zero-roster case of the claim holds only for an empty category
list. -/
theorem generate_stat_totals_shape :
    (∀ (getStats : Player → DataFrame) (numGamesOf : String → Nat)
        (roster : List Player) (stat_list : List String) (R t : Nat)
        (ω : Nat → ℚ) (ρ : Nat → Nat),
      stat_list.Nodup → "games" ∉ stat_list →
      (∀ p ∈ roster, (getStats p).cols = stat_list) →
      (0 < (roster.map fun p => numGamesOf p.team).sum ∨ stat_list = []) →
      ∃ runs t',
        generate_stat_totals getStats numGamesOf roster stat_list R false ω ρ t =
          (.ok (stat_list ++ ["games"], runs), t') ∧
        runs.length = R) ∧
    (∀ (getStats : Player → DataFrame) (numGamesOf : String → Nat) (R t : Nat)
        (ω : Nat → ℚ) (ρ : Nat → Nat),
      generate_stat_totals getStats numGamesOf [] [] R false ω ρ t =
        (.ok (["games"], List.replicate R [some 0]), t)) ∧
    (∀ (getStats : Player → DataFrame) (numGamesOf : String → Nat)
        (stat_list : List String) (R t : Nat) (ω : Nat → ℚ) (ρ : Nat → Nat),
      stat_list ≠ [] → 0 < R →
      (generate_stat_totals getStats numGamesOf [] stat_list R false ω ρ t).1 =
        .error
          (.valueError "columns passed, passed data had a different number of columns")) := by
  refine ⟨?_, ?_, ?_⟩
  · intro getStats numGamesOf roster stat_list R t ω ρ hnodup hg hcols hpos
    obtain ⟨runs, t', h1, h2, -⟩ :=
      generate_stat_totals_ok getStats numGamesOf roster stat_list ω ρ hnodup hg
        hcols hpos R t
    exact ⟨runs, t', h1, h2⟩
  · intro getStats numGamesOf R t ω ρ
    unfold generate_stat_totals
    simp only [List.map_nil, runsLoop_empty_roster]
    simp [List.all_eq_true, List.mem_replicate]
  · intro getStats numGamesOf stat_list R t ω ρ hsl hR
    unfold generate_stat_totals
    simp only [List.map_nil, runsLoop_empty_roster]
    have hfalse : ((List.replicate R [(some 0 : StatVal)]).all
        fun r => decide (r.length = stat_list.length + 1)) = false := by
      rw [← Bool.not_eq_true, List.all_eq_true]
      intro hall
      have h1 := hall [some 0] (List.mem_replicate.mpr ⟨by omega, rfl⟩)
      have h2 : stat_list.length = 0 := by
        have := of_decide_eq_true h1
        simpa using this.symm
      exact hsl (List.length_eq_zero.mp h2)
    simp [hfalse]

/-- Witness for the amended C3: the general clause at a one-player roster with two
categories and two runs, and the empty-roster failure clause at `["pts"]`, one run. -/
theorem generate_stat_totals_shape_witness :
    (((["pts", "reb"] : List String).Nodup ∧ "games" ∉ (["pts", "reb"] : List String) ∧
      (∀ p ∈ [samplePlayer], ((fun (_ : Player) => sampleTable) p).cols = ["pts", "reb"]) ∧
      (0 < (([samplePlayer]).map fun p => (fun (_ : String) => 2) p.team).sum ∨
        (["pts", "reb"] : List String) = []) ∧
      ∃ runs t',
        generate_stat_totals (fun _ => sampleTable) (fun _ => 2) [samplePlayer]
            ["pts", "reb"] 2 false oracleQ0 oracleN0 0 =
          (.ok (["pts", "reb"] ++ ["games"], runs), t') ∧
        runs.length = 2) ∧
    ((["pts"] : List String) ≠ [] ∧ (0 : Nat) < 1 ∧
      (generate_stat_totals (fun _ => sampleTable) (fun _ => 3) [] ["pts"] 1 false
          oracleQ0 oracleN0 0).1 =
        .error
          (.valueError "columns passed, passed data had a different number of columns"))) :=
  ⟨⟨by decide, by decide, by decide, Or.inl (by decide),
    generate_stat_totals_shape.1 (fun _ => sampleTable) (fun _ => 2) [samplePlayer]
      ["pts", "reb"] 2 0 oracleQ0 oracleN0 (by decide) (by decide) (by decide)
      (Or.inl (by decide))⟩,
   ⟨by decide, by decide,
    generate_stat_totals_shape.2.2 (fun _ => sampleTable) (fun _ => 3) ["pts"] 1 0
      oracleQ0 oracleN0 (by decide) (by decide)⟩⟩

/-- C5: in every successful parametric simulation the games cell of every total row is
the deterministic roster-wide scheduled-game count `Σ_p numGames[p.team]` — identical
across all `R` runs, independent of the randomized category values (the oracles `ω`,
`ρ` are universally quantified).  The duplicate-free and `games`-free hypotheses on
the requested list mark the region where the statline model matches Python dicts;
outside it the program raises a column-count `ValueError` and produces no rows. -/
theorem games_column_deterministic (getStats : Player → DataFrame)
    (numGamesOf : String → Nat) (roster : List Player) (stat_list : List String)
    (R t : Nat) (ω : Nat → ℚ) (ρ : Nat → Nat) (hnodup : stat_list.Nodup)
    (hg : "games" ∉ stat_list)
    (hcols : ∀ p ∈ roster, (getStats p).cols = stat_list)
    (hpos : 0 < (roster.map fun p => numGamesOf p.team).sum ∨ stat_list = []) :
    ∃ runs t',
      generate_stat_totals getStats numGamesOf roster stat_list R false ω ρ t =
        (.ok (stat_list ++ ["games"], runs), t') ∧
      runs.length = R ∧
      ∀ row ∈ runs,
        row.getLast? =
          some (some (((roster.map fun p => numGamesOf p.team).sum : ℚ))) := by
  obtain ⟨runs, t', h1, h2, h3⟩ :=
    generate_stat_totals_ok getStats numGamesOf roster stat_list ω ρ hnodup hg
      hcols hpos R t
  exact ⟨runs, t', h1, h2, fun row hr => (h3 row hr).2⟩

/-- Witness for C5: one player whose team plays 2 games, 1 run — every row's games
cell is exactly 2. -/
theorem games_column_deterministic_witness :
    (["pts", "reb"] : List String).Nodup ∧ "games" ∉ (["pts", "reb"] : List String) ∧
    (∀ p ∈ [samplePlayer], ((fun (_ : Player) => sampleTable) p).cols = ["pts", "reb"]) ∧
    ((((([samplePlayer]).map fun p => (fun (_ : String) => 2) p.team).sum : Nat) : ℚ) = 2) ∧
    ∃ runs t',
      generate_stat_totals (fun _ => sampleTable) (fun _ => 2) [samplePlayer]
          ["pts", "reb"] 1 false oracleQ0 oracleN0 0 =
        (.ok (["pts", "reb"] ++ ["games"], runs), t') ∧
      runs.length = 1 ∧
      ∀ row ∈ runs,
        row.getLast? =
          some (some ((((([samplePlayer]).map fun p => (fun (_ : String) => (2 : Nat)) p.team).sum : Nat) : ℚ))) :=
  ⟨by decide, by decide, by decide, by norm_num,
   games_column_deterministic (fun _ => sampleTable) (fun _ => 2) [samplePlayer]
     ["pts", "reb"] 1 0 oracleQ0 oracleN0 (by decide) (by decide) (by decide)
     (Or.inl (by decide))⟩
